import Mathlib

/-!
Verification development for the `react-native-maker` project scaffolder
(`src/scaffolder-script.js`).

The scaffolder collects four configuration answers, then performs a linear
sequence of filesystem mutations: it creates a fixed list of base
directories, unconditionally ensures `src/navigation` exists, runs four
conditional generators (bottom-tab, storage, navigation, state management),
and finally writes two fixed utility files and `tsconfig.json`.

The embedding below models:
* paths as lists of segments (a JS path `src/utils/x.ts` becomes
  `["src", "utils", "x.ts"]`);
* each filesystem mutation as an `FsOp` (`mkdirpSync` or `writeFileSync`);
* the whole run for a configuration as the list `scaffoldOps cfg`,
  translated step by step from `scaffold` (lines 25-66 of the source);
* the filesystem as a map from paths to entries, with `runOps`
  folding the operations over it;
* the fixed generated file contents as `ContentTag`s (the source emits
  fixed literal template strings; their internal structure, where a claim
  needs it, is modelled by the `StorageModuleModel` / counter / navigation
  definitions further below).
-/

namespace RNMaker

/-- A filesystem path, as a list of segments relative to the scaffolder's
root path (`this.rootPath`). -/
abbrev Path := List String

/-- All directories that `fs.mkdirpSync p` brings into existence: every
nonempty prefix of `p` (mkdirp creates missing parents recursively). -/
def ancestors (p : Path) : List Path :=
  (List.range p.length).map (fun k => p.take (k + 1))

/-- The parent directory of a path (`path.dirname`); `[]` is the root. -/
def dirname (p : Path) : Path := p.dropLast

/-- Tags identifying the fixed template strings produced by the content
generation methods of the scaffolder (`generateBottomTabContent`,
`generateAsyncStorageContent`, ..., and the inline literals of
`setupStateManagement` and `createTsConfig`).  Each generator always emits
the same literal string, so a tag determines the content. -/
inductive ContentTag where
  | bottomTab
  | asyncStorage
  | mmkvStorage
  | rootNavigator
  | navigationRef
  | reduxStoreIndex
  | reduxExampleSlice
  | zustandExampleStore
  | contextExampleProvider
  | mediaHandler
  | responsiveScreen
  | tsconfigJson
  deriving DecidableEq, Repr, Inhabited

/-- One filesystem mutation performed by the scaffolder:
`fs.mkdirpSync` (recursive, idempotent directory creation) or
`fs.writeFileSync` / `fs.writeJsonSync` (create-or-overwrite file write). -/
inductive FsOp where
  | mkdirp (p : Path)
  | write (p : Path) (c : ContentTag)
  deriving DecidableEq, Repr

/-- An (output path, content) pair, as used by the generators' file lists. -/
structure FileSpec where
  path : Path
  content : ContentTag
  deriving DecidableEq, Repr

/-- The collected configuration (`this.config`).  The two list prompts
store the selected choice string; before the prompts run they are `null`,
modelled as `none`. -/
structure ScaffoldConfig where
  bottomNavigation : Bool
  storageType : Option String
  navigationSetup : Bool
  stateManagement : Option String
  deriving DecidableEq, Repr

/-- JavaScript truthiness of the `storageType` / `stateManagement` fields:
`null` is falsy, a string is truthy iff it is nonempty.  This is the test
performed by `if (this.config.storageType)` and
`if (this.config.stateManagement)` in `scaffold`. -/
def jsTruthy : Option String → Bool
  | none => false
  | some s => !(s == "")

/-- The hard-coded base directory list of `createBaseDirectories`
(lines 153-206). -/
def baseDirectories : List Path :=
  [ ["src", "assets", "fonts"],
    ["src", "assets", "icons", "imageIcons"],
    ["src", "assets", "icons", "svgIcons"],
    ["src", "assets", "images", "PngAndJpgImages"],
    ["src", "assets", "images", "SvgImages"],
    ["src", "assets", "images", "OtherImages"],
    ["src", "components", "global"],
    ["src", "components", "forms"],
    ["src", "store"],
    ["src", "constants"],
    ["src", "hooks"],
    ["src", "context"],
    ["src", "features", "auth"],
    ["src", "features", "dashboard"],
    ["src", "features", "settings"],
    ["src", "features", "chat"],
    ["src", "i18n", "locales"],
    ["src", "service"],
    ["src", "styles"],
    ["src", "theme"],
    ["src", "types"],
    ["src", "utils"] ]

/-- Operations of `createBaseDirectories`: one `mkdirpSync` per base
directory. -/
def createBaseDirectoriesOps : List FsOp := baseDirectories.map FsOp.mkdirp

/-- Operations of `ensureNavigationDirectory` (lines 144-148): it
unconditionally runs `fs.mkdirpSync(rootPath/src/navigation)`. -/
def ensureNavigationDirectoryOps : List FsOp :=
  [FsOp.mkdirp ["src", "navigation"]]

/-- Operations of `setupBottomNavigation` (lines 211-234): it creates the
icon directory, then writes `src/navigation/BottomTabNavigator.tsx`
WITHOUT creating that file's parent directory itself (unlike the other
file-writing generators, it never calls `mkdirpSync(path.dirname(...))`). -/
def setupBottomNavigationOps : List FsOp :=
  [ FsOp.mkdirp ["src", "assets", "icons", "BottomTabIcons"],
    FsOp.write ["src", "navigation", "BottomTabNavigator.tsx"] ContentTag.bottomTab ]

/-- Output path of the Async Storage utility file. -/
def asyncStoragePath : Path := ["src", "utils", "asyncStorage.ts"]

/-- Output path of the MMKV storage utility file. -/
def mmkvStoragePath : Path := ["src", "utils", "mmkvStorage.ts"]

/-- The `storageFiles` object-literal lookup of `setupStorage`
(lines 240-255), restricted to own properties: the two keys map to their
file lists and every other choice string takes the `|| []` fallback.
This restriction is exact for every string the storage prompt can
deliver; the full property-access semantics of `storageFiles[key]`,
including the `Object.prototype` chain, is modelled separately by
`storageFilesAccess` below. -/
def storageFilesLookup (storageType : String) : List FileSpec :=
  if storageType = "Async Storage" then
    [⟨asyncStoragePath, ContentTag.asyncStorage⟩]
  else if storageType = "React Native MMKV" then
    [⟨mmkvStoragePath, ContentTag.mmkvStorage⟩]
  else
    []

/-- For each file in a generator's list: `mkdirpSync(path.dirname(full))`
followed by `writeFileSync(full, content)` — the loop body shared by
`setupStorage`, `setupNavigation`, `setupStateManagement` and
`createUtilityFiles`. -/
def writeSpecOps (f : FileSpec) : List FsOp :=
  [FsOp.mkdirp (dirname f.path), FsOp.write f.path f.content]

/-- Operations of `setupStorage` (lines 239-265). -/
def setupStorageOps (storageType : String) : List FsOp :=
  (storageFilesLookup storageType).flatMap writeSpecOps

/-- Output path of the root navigator file. -/
def rootNavigatorPath : Path := ["src", "navigation", "RootNavigator.tsx"]

/-- Output path of the navigation-reference helper file. -/
def navigationRefPath : Path := ["src", "navigation", "NavigationRef.ts"]

/-- Operations of `setupNavigation` (lines 270-292): two files, each
preceded by `mkdirpSync` of its parent. -/
def setupNavigationOps : List FsOp :=
  ([ ⟨rootNavigatorPath, ContentTag.rootNavigator⟩,
     ⟨navigationRefPath, ContentTag.navigationRef⟩ ] : List FileSpec).flatMap writeSpecOps

/-- Output path of the Redux Toolkit store entry point. -/
def reduxStoreIndexPath : Path := ["src", "store", "index.ts"]

/-- Output path of the Redux Toolkit example slice. -/
def reduxExampleSlicePath : Path := ["src", "store", "slices", "exampleSlice.ts"]

/-- Output path of the Zustand example store. -/
def zustandExampleStorePath : Path := ["src", "store", "zustand", "exampleStore.ts"]

/-- Output path of the Context API example provider. -/
def contextExampleProviderPath : Path := ["src", "context", "providers", "ExampleProvider.tsx"]

/-- The `stateManagementFiles` object-literal lookup of
`setupStateManagement` (lines 297-397), restricted to own properties: the
three keys map to their file lists and every other choice string takes
the `|| []` fallback.  As with `storageFilesLookup`, the full
property-access semantics including the `Object.prototype` chain is
modelled separately by `stateManagementFilesAccess` below. -/
def stateManagementFilesLookup (stateManagement : String) : List FileSpec :=
  if stateManagement = "Redux Toolkit" then
    [ ⟨reduxStoreIndexPath, ContentTag.reduxStoreIndex⟩,
      ⟨reduxExampleSlicePath, ContentTag.reduxExampleSlice⟩ ]
  else if stateManagement = "Zustand" then
    [⟨zustandExampleStorePath, ContentTag.zustandExampleStore⟩]
  else if stateManagement = "Context API" then
    [⟨contextExampleProviderPath, ContentTag.contextExampleProvider⟩]
  else
    []

/-- Operations of `setupStateManagement` (lines 297-407). -/
def setupStateManagementOps (stateManagement : String) : List FsOp :=
  (stateManagementFilesLookup stateManagement).flatMap writeSpecOps

/-- Output path of the media-handler placeholder utility. -/
def mediaHandlerPath : Path := ["src", "utils", "MediaHandler.ts"]

/-- Output path of the responsive-screen placeholder utility. -/
def responsiveScreenPath : Path := ["src", "utils", "responsive-screen.ts"]

/-- Operations of `createUtilityFiles` (lines 413-434). -/
def createUtilityFilesOps : List FsOp :=
  ([ ⟨mediaHandlerPath, ContentTag.mediaHandler⟩,
     ⟨responsiveScreenPath, ContentTag.responsiveScreen⟩ ] : List FileSpec).flatMap writeSpecOps

/-- Output path of the generated `tsconfig.json`. -/
def tsconfigPath : Path := ["tsconfig.json"]

/-- Operations of `createTsConfig` (lines 439-469): a single
`writeJsonSync` at the root (no directory creation; the parent is the
root path itself). -/
def createTsConfigOps : List FsOp :=
  [FsOp.write tsconfigPath ContentTag.tsconfigJson]

/-- The bottom-tab chunk of `scaffold`: `if (this.config.bottomNavigation)
this.setupBottomNavigation()`. -/
def bottomChunk (b : Bool) : List FsOp :=
  if b then setupBottomNavigationOps else []

/-- The storage chunk of `scaffold`: `if (this.config.storageType)
this.setupStorage()` — gated on JS truthiness of the stored string. -/
def storageChunk (st : Option String) : List FsOp :=
  if jsTruthy st then setupStorageOps (st.getD "") else []

/-- The navigation chunk of `scaffold`: `if (this.config.navigationSetup)
this.setupNavigation()`. -/
def navChunk (b : Bool) : List FsOp :=
  if b then setupNavigationOps else []

/-- The state-management chunk of `scaffold`:
`if (this.config.stateManagement) this.setupStateManagement()`. -/
def stateChunk (sm : Option String) : List FsOp :=
  if jsTruthy sm then setupStateManagementOps (sm.getD "") else []

/-- The complete, ordered list of filesystem mutations performed by one
successful `scaffold` run with configuration `cfg` (lines 36-60 of the
source, in program order). -/
def scaffoldOps (cfg : ScaffoldConfig) : List FsOp :=
  createBaseDirectoriesOps
    ++ ensureNavigationDirectoryOps
    ++ bottomChunk cfg.bottomNavigation
    ++ storageChunk cfg.storageType
    ++ navChunk cfg.navigationSetup
    ++ stateChunk cfg.stateManagement
    ++ createUtilityFilesOps
    ++ createTsConfigOps

/-! ## Models of the generated file contents

The generators emit fixed literal template strings.  The definitions below
model the structure of those templates where a claim refers to it. -/

/-- Model of the structured document written by `createTsConfig`
(lines 439-469): the `defaultConfig` object literal, field by field. -/
structure TsConfigModel where
  extendsBase : String
  typeRoots : List String
  typeDeclarations : List String
  baseUrl : String
  paths : List (String × List String)
  deriving DecidableEq, Repr

/-- The `defaultConfig` object of `createTsConfig`, transcribed entry by
entry from lines 441-465. -/
def tsConfigDefault : TsConfigModel :=
  { extendsBase := "@react-native/typescript-config/tsconfig.json",
    typeRoots := ["node_modules/@types", "src/types"],
    typeDeclarations := ["jest"],
    baseUrl := "./src",
    paths :=
      [ ("@assets/*", ["assets/*"]),
        ("@features/*", ["features/*"]),
        ("@navigation/*", ["navigation/*"]),
        ("@components/*", ["components/*"]),
        ("@state/*", ["state/*"]),
        ("@store/*", ["store/*"]),
        ("@service/*", ["service/*"]),
        ("@styles/*", ["styles/*"]),
        ("@utils/*", ["utils/*"]),
        ("@i18n/*", ["i18n/*"]),
        ("@theme/*", ["theme/*"]),
        ("@types/*", ["types/*"]),
        ("@constants/*", ["constants/*"]),
        ("@context/*", ["context/*"]),
        ("@hooks/*", ["hooks/*"]) ] }

/-- Model of a generated storage utility module: the class name and the
names of its static operations, in declaration order. -/
structure StorageModuleModel where
  className : String
  methods : List String
  deriving DecidableEq, Repr

/-- The `StorageUtil` class emitted by `generateAsyncStorageContent`
(lines 476-541): four static methods, each wrapping the underlying
AsyncStorage call in try/catch. -/
def asyncStorageModule : StorageModuleModel :=
  { className := "StorageUtil",
    methods := ["setItem", "getItem", "deleteItem", "clearAll"] }

/-- The `MMKVStorageUtil` class emitted by `generateMMKVStorageContent`
(lines 543-610): four static methods, each wrapping the underlying MMKV
call in try/catch. -/
def mmkvStorageModule : StorageModuleModel :=
  { className := "MMKVStorageUtil",
    methods := ["setItem", "getItem", "deleteItem", "clearAll"] }

/-- The counter state of the generated state-management examples: a single
integer field named `value`. -/
structure CounterState where
  value : Int
  deriving DecidableEq, Repr

/-- Initial state of the Redux Toolkit example slice
(`const initialState = { value: 0 }`, line 318). -/
def reduxInitialState : CounterState := { value := 0 }

/-- The `increment` reducer of the example slice
(`(state) => { state.value += 1; }`, line 326). -/
def reduxIncrement (s : CounterState) : CounterState := { s with value := s.value + 1 }

/-- The `decrement` reducer of the example slice
(`(state) => { state.value -= 1; }`, line 327). -/
def reduxDecrement (s : CounterState) : CounterState := { s with value := s.value - 1 }

/-- Initial `value` of the Zustand example store (`value: 0`, line 349). -/
def zustandInitialValue : Int := 0

/-- The Zustand `increment` action
(`set((state) => ({ value: state.value + 1 }))`, line 350). -/
def zustandIncrement (value : Int) : Int := value + 1

/-- The Zustand `decrement` action
(`set((state) => ({ value: state.value - 1 }))`, line 351). -/
def zustandDecrement (value : Int) : Int := value - 1

/-- Initial `value` of the Context API example provider
(`useState(0)`, line 373). -/
def contextInitialValue : Int := 0

/-- The Context API `increment` (`setValue((prev) => prev + 1)`, line 375). -/
def contextIncrement (prev : Int) : Int := prev + 1

/-- The Context API `decrement` (`setValue((prev) => prev - 1)`, line 376). -/
def contextDecrement (prev : Int) : Int := prev - 1

/-- A route descriptor as used by the generated `NavigationRef.ts`
(`{ name: string; params?: Record<string, any> }`, line 653). -/
structure Route where
  name : String
  params : Option (List (String × String)) := none
  deriving DecidableEq, Repr

/-- The state of the generated navigation container reference: whether the
surface is ready, the current route stack and the active index. -/
structure NavContainer where
  ready : Bool
  routes : List Route
  index : Int
  deriving DecidableEq, Repr

/-- The generated `resetNavigationStack` (lines 653-662): when the
container is ready, `navigationRef.reset({ index: routes.length - 1,
routes })` replaces the stack and the active index; otherwise it only logs
an error and leaves the container unchanged. -/
def resetNavigationStack (routes : List Route) (nav : NavContainer) : NavContainer :=
  if nav.ready then
    { nav with routes := routes, index := (routes.length : Int) - 1 }
  else
    nav

/-! ## Observations on operation lists -/

/-- The file writes performed by an operation list, in order. -/
def fileWrites (ops : List FsOp) : List (Path × ContentTag) :=
  ops.filterMap (fun op =>
    match op with
    | FsOp.write p c => some (p, c)
    | FsOp.mkdirp _ => none)

/-- The file writes landing at one of the two storage utility paths. -/
def storageWrites (ops : List FsOp) : List (Path × ContentTag) :=
  (fileWrites ops).filter (fun pc => pc.1 == asyncStoragePath || pc.1 == mmkvStoragePath)

/-- Auxiliary scan for `parentsPrepared`: walks the operation list in
order, accumulating every directory brought into existence by the mkdirp
calls seen so far, and checks that each file write's parent directory is
the root or has already been created. -/
def parentsPreparedAux : List Path → List FsOp → Bool
  | _, [] => true
  | created, FsOp.mkdirp p :: rest => parentsPreparedAux (created ++ ancestors p) rest
  | created, FsOp.write p _ :: rest =>
      ((dirname p).isEmpty || created.contains (dirname p)) && parentsPreparedAux created rest

/-- Every file write in the operation list is preceded by the creation of
its parent directory (or writes directly into the root). -/
def parentsPrepared (ops : List FsOp) : Bool := parentsPreparedAux [] ops

/-! ## Full property-access semantics of the generator lookup objects

`setupStorage` and `setupStateManagement` read
`storageFiles[this.config.storageType] || []` (line 255) and
`stateManagementFiles[this.config.stateManagement] || []` (line 397) on
plain object literals.  A JavaScript property read traverses the
prototype chain, so a key naming an `Object.prototype` property (such as
`"constructor"` or `"toString"`) yields that inherited value — a truthy
function or object, not an array — the `|| []` fallback does not apply,
and the subsequent `files.forEach(...)` throws a TypeError.  The
definitions below model the read, the `||` fallback and the `forEach`
call at that level of fidelity. -/

/-- The property names every plain object literal inherits from
`Object.prototype`; reading any of them on `storageFiles` or
`stateManagementFiles` yields a truthy non-array value. -/
def objectPrototypeKeys : List String :=
  [ "constructor", "hasOwnProperty", "isPrototypeOf", "propertyIsEnumerable",
    "toLocaleString", "toString", "valueOf",
    "__defineGetter__", "__defineSetter__", "__lookupGetter__", "__lookupSetter__",
    "__proto__" ]

/-- The JavaScript value produced by reading a property of one of the
generator lookup objects: `undefined` for an absent key, an own
file-list entry, or a (truthy, non-array) value inherited from
`Object.prototype`. -/
inductive JsValue where
  | undef
  | fileList (files : List FileSpec)
  | protoProperty (name : String)
  deriving DecidableEq, Repr

/-- The read `storageFiles[key]` of line 255, prototype chain included. -/
def storageFilesAccess (key : String) : JsValue :=
  if key = "Async Storage" then
    JsValue.fileList [⟨asyncStoragePath, ContentTag.asyncStorage⟩]
  else if key = "React Native MMKV" then
    JsValue.fileList [⟨mmkvStoragePath, ContentTag.mmkvStorage⟩]
  else if objectPrototypeKeys.contains key then
    JsValue.protoProperty key
  else
    JsValue.undef

/-- The read `stateManagementFiles[key]` of line 397, prototype chain
included. -/
def stateManagementFilesAccess (key : String) : JsValue :=
  if key = "Redux Toolkit" then
    JsValue.fileList
      [ ⟨reduxStoreIndexPath, ContentTag.reduxStoreIndex⟩,
        ⟨reduxExampleSlicePath, ContentTag.reduxExampleSlice⟩ ]
  else if key = "Zustand" then
    JsValue.fileList [⟨zustandExampleStorePath, ContentTag.zustandExampleStore⟩]
  else if key = "Context API" then
    JsValue.fileList [⟨contextExampleProviderPath, ContentTag.contextExampleProvider⟩]
  else if objectPrototypeKeys.contains key then
    JsValue.protoProperty key
  else
    JsValue.undef

/-- The `v || []` step: `undefined` is falsy and is replaced by the empty
array; arrays and inherited `Object.prototype` values are truthy and are
kept unchanged. -/
def jsOrEmptyList : JsValue → JsValue
  | JsValue.undef => JsValue.fileList []
  | v => v

/-- The `files.forEach(file => ...)` loop shared by both generators:
iterating an array performs its mkdirp-then-write operations; calling
`.forEach` on an inherited non-array value (or on `undefined`) throws a
TypeError, modelled as `Except.error`. -/
def forEachWriteOps : JsValue → Except String (List FsOp)
  | JsValue.fileList files => Except.ok (files.flatMap writeSpecOps)
  | JsValue.protoProperty name =>
      Except.error ("TypeError: files.forEach is not a function, key: " ++ name)
  | JsValue.undef => Except.error "TypeError: files.forEach is not a function"

/-- Faithful model of a `setupStorage` call (lines 239-265) for an
arbitrary choice string: the operations it performs, or the TypeError it
raises. -/
def setupStorageRun (storageType : String) : Except String (List FsOp) :=
  forEachWriteOps (jsOrEmptyList (storageFilesAccess storageType))

/-- Faithful model of a `setupStateManagement` call (lines 297-407) for an
arbitrary choice string. -/
def setupStateManagementRun (stateManagement : String) : Except String (List FsOp) :=
  forEachWriteOps (jsOrEmptyList (stateManagementFilesAccess stateManagement))

/-! ## The option collector and the top-level process -/

/-- Failure of the interactive surface: `inquirer.prompt` rejects when no
interactive terminal is available. -/
inductive PromptError where
  | inputUnavailable (detail : String)
  deriving DecidableEq, Repr

/-- The four sequential prompts of `scaffold` (lines 30-33), each awaited
in order; the first rejection aborts the sequence, so a configuration is
produced only when all four prompts succeed.  The two list prompts always
yield one of their offered choice strings. -/
def collectConfig (r1 : Except PromptError Bool) (r2 : Except PromptError String)
    (r3 : Except PromptError Bool) (r4 : Except PromptError String) :
    Except PromptError ScaffoldConfig := do
  let bottomNav ← r1
  let storageType ← r2
  let navigationSetup ← r3
  let stateManagement ← r4
  pure { bottomNavigation := bottomNav, storageType := some storageType,
         navigationSetup := navigationSetup, stateManagement := some stateManagement }

/-- The filesystem mutations of a whole run given the four prompt
outcomes: the prompts run before any mutation inside the same `try`
block, so a prompt failure jumps to the `catch` (which only logs) with no
operation performed. -/
def scaffoldRun (r1 : Except PromptError Bool) (r2 : Except PromptError String)
    (r3 : Except PromptError Bool) (r4 : Except PromptError String) : List FsOp :=
  match collectConfig r1 r2 r3 r4 with
  | Except.error _ => []
  | Except.ok cfg => scaffoldOps cfg

/-- Observable outcome of one scaffolder process run. -/
structure ProcessOutcome where
  fsOpsPerformed : List FsOp
  errorBannerShown : Bool
  successBannerShown : Bool
  rollbackOps : List FsOp
  exitCode : Nat
  deriving DecidableEq, Repr

/-- The top-level try/catch of `scaffold` (lines 28-65) together with the
CLI entry point (lines 679-682).  A failure after `k` of the run's
operations reaches the single catch block, which prints the error banner
and nothing else: it deletes no already-created entry, and since neither
the catch block nor the entry point sets an exit code or rethrows
(`scaffold().catch(console.error)`), the process ends with status 0. -/
def scaffoldProcess (cfg : ScaffoldConfig) : Option (Nat × String) → ProcessOutcome
  | none =>
      { fsOpsPerformed := scaffoldOps cfg, errorBannerShown := false,
        successBannerShown := true, rollbackOps := [], exitCode := 0 }
  | some (k, _detail) =>
      { fsOpsPerformed := (scaffoldOps cfg).take k, errorBannerShown := true,
        successBannerShown := false, rollbackOps := [], exitCode := 0 }

/-! ## Concrete configurations used by the witnesses -/

/-- The all-declined configuration: both confirms answered no, both list
prompts answered `None`. -/
def cfgBare : ScaffoldConfig :=
  { bottomNavigation := false, storageType := some "None",
    navigationSetup := false, stateManagement := some "None" }

/-- A configuration selecting Async Storage only. -/
def cfgAsync : ScaffoldConfig :=
  { bottomNavigation := false, storageType := some "Async Storage",
    navigationSetup := false, stateManagement := some "None" }

/-- A configuration selecting MMKV storage only. -/
def cfgMMKV : ScaffoldConfig :=
  { bottomNavigation := false, storageType := some "React Native MMKV",
    navigationSetup := false, stateManagement := some "None" }

/-- A configuration selecting Redux Toolkit only. -/
def cfgRedux : ScaffoldConfig :=
  { bottomNavigation := false, storageType := some "None",
    navigationSetup := false, stateManagement := some "Redux Toolkit" }

/-- The paths that belong to the unconditional outputs: the base
directories (with the ancestors mkdirp creates), the unconditionally
ensured `src/navigation`, the two fixed utility files and
`tsconfig.json`. -/
def fixedOutputPaths : List Path :=
  (baseDirectories ++ [["src", "navigation"]]).flatMap ancestors
    ++ [mediaHandlerPath, responsiveScreenPath, tsconfigPath]

/-- The output paths of the four conditional generators: the bottom-tab
icon directory and navigator file, the two storage utility files, the two
navigation files, and the state-management files of all three variants. -/
def conditionalOutputPaths : List Path :=
  [ ["src", "assets", "icons", "BottomTabIcons"],
    ["src", "navigation", "BottomTabNavigator.tsx"],
    asyncStoragePath, mmkvStoragePath,
    rootNavigatorPath, navigationRefPath,
    reduxStoreIndexPath, reduxExampleSlicePath,
    zustandExampleStorePath, contextExampleProviderPath ]

/-- Three concrete route descriptors, used to witness the
`resetNavigationStack` contract. -/
def demoRoutes : List Route :=
  [{ name := "Home" }, { name := "Profile" }, { name := "Settings" }]

/-- A ready navigation container with an unrelated existing stack. -/
def demoNav : NavContainer :=
  { ready := true, routes := [{ name := "Splash" }], index := 0 }

/-! ## Filesystem semantics -/

/-- A filesystem entry: a directory or a file with its (tagged) content. -/
inductive Entry where
  | dir
  | file (c : ContentTag)
  deriving DecidableEq, Repr, Inhabited

/-- The filesystem under the root path, as a partial map from paths to
entries. -/
abbrev FS := Path → Option Entry

/-- The empty filesystem (a fresh root directory). -/
def emptyFS : FS := fun _ => none

/-- Store entry `e` at path `p`. -/
def setEntry (fs : FS) (p : Path) (e : Entry) : FS :=
  fun q => if q = p then some e else fs q

/-- The path-entry assignments an operation performs: `mkdirp p` makes
every ancestor of `p` (including `p`) a directory; `write p c` makes `p` a
file with content `c` (creating or overwriting it). -/
def assignsOf : FsOp → List (Path × Entry)
  | FsOp.mkdirp p => (ancestors p).map (fun q => (q, Entry.dir))
  | FsOp.write p c => [(p, Entry.file c)]

/-- Apply a list of assignments in order. -/
def applyAssigns (fs : FS) (l : List (Path × Entry)) : FS :=
  l.foldl (fun f pe => setEntry f pe.1 pe.2) fs

/-- Apply one operation. -/
def applyOp (fs : FS) (op : FsOp) : FS :=
  applyAssigns fs (assignsOf op)

/-- Run a whole operation list over a filesystem. -/
def runOps (ops : List FsOp) (fs : FS) : FS :=
  ops.foldl applyOp fs

/-- All assignments of an operation list, in order. -/
def allAssigns (ops : List FsOp) : List (Path × Entry) :=
  ops.flatMap assignsOf

/-- Every path an operation list creates or writes. -/
def targetsOf (ops : List FsOp) : List Path :=
  (allAssigns ops).map Prod.fst

/-- Right-biased choice: the result of a later assignment, if any,
otherwise the earlier value. -/
def updOpt (later earlier : Option Entry) : Option Entry :=
  match later with
  | some e => some e
  | none => earlier

/-- The last assignment a list makes to path `q`, if any. -/
def lastAssign : List (Path × Entry) → Path → Option Entry
  | [], _ => none
  | pe :: rest, q => updOpt (lastAssign rest q) (if q = pe.1 then some pe.2 else none)

/-! ## Helper lemmas on the semantics -/

theorem applyAssigns_eq (l : List (Path × Entry)) (fs : FS) (q : Path) :
    applyAssigns fs l q = updOpt (lastAssign l q) (fs q) := by
  induction l generalizing fs with
  | nil => rfl
  | cons pe rest ih =>
    show applyAssigns (setEntry fs pe.1 pe.2) rest q = _
    rw [ih]
    show updOpt (lastAssign rest q) (setEntry fs pe.1 pe.2 q)
      = updOpt (updOpt (lastAssign rest q) (if q = pe.1 then some pe.2 else none)) (fs q)
    cases h : lastAssign rest q with
    | some e => simp [updOpt]
    | none =>
      simp only [updOpt, setEntry]
      by_cases hq : q = pe.1 <;> simp [hq]

theorem applyAssigns_append (l₁ l₂ : List (Path × Entry)) (fs : FS) :
    applyAssigns fs (l₁ ++ l₂) = applyAssigns (applyAssigns fs l₁) l₂ := by
  simp [applyAssigns, List.foldl_append]

theorem runOps_eq_applyAssigns (ops : List FsOp) (fs : FS) :
    runOps ops fs = applyAssigns fs (allAssigns ops) := by
  induction ops generalizing fs with
  | nil => rfl
  | cons op rest ih =>
    show runOps rest (applyOp fs op) = _
    rw [ih]
    show applyAssigns (applyAssigns fs (assignsOf op)) (allAssigns rest)
      = applyAssigns fs (allAssigns (op :: rest))
    rw [show allAssigns (op :: rest) = assignsOf op ++ allAssigns rest from rfl,
        applyAssigns_append]

theorem runOps_apply (ops : List FsOp) (fs : FS) (q : Path) :
    runOps ops fs q = updOpt (lastAssign (allAssigns ops) q) (fs q) := by
  rw [runOps_eq_applyAssigns, applyAssigns_eq]

theorem lastAssign_mem {q : Path} {e : Entry} {l : List (Path × Entry)}
    (h : lastAssign l q = some e) : q ∈ l.map Prod.fst := by
  induction l with
  | nil => simp [lastAssign] at h
  | cons pe rest ih =>
    simp only [lastAssign] at h
    cases hr : lastAssign rest q with
    | some e2 =>
      rw [hr] at h
      simp only [updOpt] at h
      exact List.mem_cons_of_mem _ (ih (hr.trans (by rw [h])))
    | none =>
      rw [hr] at h
      simp only [updOpt] at h
      by_cases hq : q = pe.1
      · simp [hq]
      · simp [hq] at h

theorem runOps_isSome_mem {ops : List FsOp} {q : Path}
    (h : (runOps ops emptyFS q).isSome = true) : q ∈ targetsOf ops := by
  rw [runOps_apply] at h
  cases he : lastAssign (allAssigns ops) q with
  | none => rw [he] at h; simp [updOpt, emptyFS] at h
  | some e => exact lastAssign_mem he

theorem runOps_idem (ops : List FsOp) (fs : FS) :
    runOps ops (runOps ops fs) = runOps ops fs := by
  funext q
  rw [runOps_apply ops (runOps ops fs) q, runOps_apply ops fs q]
  cases h : lastAssign (allAssigns ops) q <;> simp [updOpt]

theorem fileWrites_append (a b : List FsOp) :
    fileWrites (a ++ b) = fileWrites a ++ fileWrites b := by
  simp [fileWrites, List.filterMap_append]

theorem storageWrites_append (a b : List FsOp) :
    storageWrites (a ++ b) = storageWrites a ++ storageWrites b := by
  simp [storageWrites, fileWrites_append, List.filter_append]

theorem storageChunk_cases (st : Option String) :
    storageChunk st = [] ∨ storageChunk st = setupStorageOps "Async Storage" ∨
      storageChunk st = setupStorageOps "React Native MMKV" := by
  cases st with
  | none => exact Or.inl rfl
  | some s =>
    by_cases h1 : s = "Async Storage"
    · subst h1; exact Or.inr (Or.inl (by decide))
    · by_cases h2 : s = "React Native MMKV"
      · subst h2; exact Or.inr (Or.inr (by decide))
      · left
        by_cases h3 : s = ""
        · subst h3; rfl
        · have ht : jsTruthy (some s) = true := by simp [jsTruthy, h3]
          simp [storageChunk, ht, setupStorageOps, storageFilesLookup, h1, h2]

theorem stateChunk_cases (sm : Option String) :
    stateChunk sm = [] ∨ stateChunk sm = setupStateManagementOps "Redux Toolkit" ∨
      stateChunk sm = setupStateManagementOps "Zustand" ∨
      stateChunk sm = setupStateManagementOps "Context API" := by
  cases sm with
  | none => exact Or.inl rfl
  | some s =>
    by_cases h1 : s = "Redux Toolkit"
    · subst h1; exact Or.inr (Or.inl (by decide))
    · by_cases h2 : s = "Zustand"
      · subst h2; exact Or.inr (Or.inr (Or.inl (by decide)))
      · by_cases h3 : s = "Context API"
        · subst h3; exact Or.inr (Or.inr (Or.inr (by decide)))
        · left
          by_cases h4 : s = ""
          · subst h4; rfl
          · have ht : jsTruthy (some s) = true := by simp [jsTruthy, h4]
            simp [stateChunk, ht, setupStateManagementOps, stateManagementFilesLookup, h1, h2, h3]

theorem storageWrites_bottomChunk (b : Bool) : storageWrites (bottomChunk b) = [] := by
  cases b <;> decide

theorem storageWrites_navChunk (b : Bool) : storageWrites (navChunk b) = [] := by
  cases b <;> decide

theorem storageWrites_stateChunk (sm : Option String) :
    storageWrites (stateChunk sm) = [] := by
  rcases stateChunk_cases sm with h | h | h | h <;> rw [h] <;> decide

theorem setupStorageRun_eq_ops (s : String)
    (h : objectPrototypeKeys.contains s = false) :
    setupStorageRun s = Except.ok (setupStorageOps s) := by
  have h' : s ∉ objectPrototypeKeys := by simpa using h
  by_cases h1 : s = "Async Storage"
  · subst h1; rfl
  · by_cases h2 : s = "React Native MMKV"
    · subst h2; rfl
    · simp [setupStorageRun, storageFilesAccess, h1, h2, h', jsOrEmptyList,
        forEachWriteOps, setupStorageOps, storageFilesLookup]

theorem setupStateManagementRun_eq_ops (t : String)
    (h : objectPrototypeKeys.contains t = false) :
    setupStateManagementRun t = Except.ok (setupStateManagementOps t) := by
  have h' : t ∉ objectPrototypeKeys := by simpa using h
  by_cases h1 : t = "Redux Toolkit"
  · subst h1; rfl
  · by_cases h2 : t = "Zustand"
    · subst h2; rfl
    · by_cases h3 : t = "Context API"
      · subst h3; rfl
      · simp [setupStateManagementRun, stateManagementFilesAccess, h1, h2, h3, h',
          jsOrEmptyList, forEachWriteOps, setupStateManagementOps, stateManagementFilesLookup]

/-! ## Claim theorems -/

/-- C1 (counterexample): the claim that the generated configuration
document's `paths` mapping contains exactly 14 keys (with each value a
single-element list and `baseUrl = "./src"`) is false of `createTsConfig`:
its `paths` object has 15 keys. -/
theorem tsconfig_fourteen_keys_false :
    ¬ (tsConfigDefault.paths.length = 14 ∧
        (∀ kv ∈ tsConfigDefault.paths, kv.2.length = 1) ∧
        tsConfigDefault.baseUrl = "./src") := by
  decide

/-- C1 (amended): the generated configuration document's `paths` mapping
contains exactly 15 distinct keys, each mapped to a single-element list,
and its `baseUrl` equals `"./src"`. -/
theorem tsconfig_fifteen_single_element_paths :
    tsConfigDefault.paths.length = 15 ∧
    (∀ kv ∈ tsConfigDefault.paths, kv.2.length = 1) ∧
    tsConfigDefault.baseUrl = "./src" ∧
    (tsConfigDefault.paths.map Prod.fst).Nodup := by
  decide

/-- C4: with `stateManagement = "Redux Toolkit"` the generator writes
exactly two files (the store entry point and the example slice), both of
which exist after a run with that choice, and the generated counter
contract is: initial value 0, `increment` adds exactly 1, `decrement`
subtracts exactly 1 (no bounds checking), identically in the Redux
Toolkit, Zustand and Context API variants. -/
theorem redux_two_files_and_counter_contract :
    fileWrites (setupStateManagementOps "Redux Toolkit") =
      [(reduxStoreIndexPath, ContentTag.reduxStoreIndex),
       (reduxExampleSlicePath, ContentTag.reduxExampleSlice)] ∧
    runOps (scaffoldOps cfgRedux) emptyFS reduxStoreIndexPath
      = some (Entry.file ContentTag.reduxStoreIndex) ∧
    runOps (scaffoldOps cfgRedux) emptyFS reduxExampleSlicePath
      = some (Entry.file ContentTag.reduxExampleSlice) ∧
    reduxInitialState.value = 0 ∧
    (∀ s : CounterState,
      (reduxIncrement s).value = s.value + 1 ∧ (reduxDecrement s).value = s.value - 1) ∧
    zustandInitialValue = 0 ∧
    (∀ v : Int, zustandIncrement v = v + 1 ∧ zustandDecrement v = v - 1) ∧
    contextInitialValue = 0 ∧
    (∀ v : Int, contextIncrement v = v + 1 ∧ contextDecrement v = v - 1) := by
  refine ⟨by decide, by decide, by decide, rfl, fun s => ⟨rfl, rfl⟩, rfl,
    fun v => ⟨rfl, rfl⟩, rfl, fun v => ⟨rfl, rfl⟩⟩

/-- C5: when the navigation surface is ready, the generated
`resetNavigationStack` replaces the whole stack by the supplied non-empty
route list and sets the active index to `length - 1`; in particular a
3-element route list yields active index 2. -/
theorem resetNavigationStack_sets_last_index (routes : List Route) (nav : NavContainer)
    (hready : nav.ready = true) (_hne : routes ≠ []) :
    (resetNavigationStack routes nav).routes = routes ∧
    (resetNavigationStack routes nav).index = (routes.length : Int) - 1 ∧
    (routes.length = 3 → (resetNavigationStack routes nav).index = 2) := by
  unfold resetNavigationStack
  rw [hready]
  refine ⟨rfl, rfl, ?_⟩
  intro h3
  simp [h3]

/-- C5 witness: resetting a ready container with three concrete routes
replaces the stack and yields active index 2. -/
theorem resetNavigationStack_sets_last_index_witness :
    (resetNavigationStack demoRoutes demoNav).index = 2 :=
  (resetNavigationStack_sets_last_index demoRoutes demoNav rfl (by decide)).2.2 rfl

/-- C7: when any error is raised during a run, it reaches the single
top-level catch of `scaffold` after some prefix of the run's mutations;
the catch prints the error banner (and no success banner), removes none of
the already-performed operations, and the process ends with exit
status 0. -/
theorem top_level_catch_no_rollback_exit_zero
    (cfg : ScaffoldConfig) (k : Nat) (detail : String) :
    (scaffoldProcess cfg (some (k, detail))).errorBannerShown = true ∧
    (scaffoldProcess cfg (some (k, detail))).successBannerShown = false ∧
    (scaffoldProcess cfg (some (k, detail))).rollbackOps = [] ∧
    (scaffoldProcess cfg (some (k, detail))).exitCode = 0 ∧
    (scaffoldProcess cfg (some (k, detail))).fsOpsPerformed = (scaffoldOps cfg).take k ∧
    (scaffoldProcess cfg none).exitCode = 0 :=
  ⟨rfl, rfl, rfl, rfl, rfl, rfl⟩

/-- C8: for every configuration and every starting filesystem, running the
pipeline's mutations twice yields exactly the filesystem produced by one
run: directory creation is idempotent and every file write deterministically
overwrites. -/
theorem scaffold_run_idempotent (cfg : ScaffoldConfig) (fs : FS) :
    runOps (scaffoldOps cfg) (runOps (scaffoldOps cfg) fs) = runOps (scaffoldOps cfg) fs :=
  runOps_idem (scaffoldOps cfg) fs

/-- C2: with both confirms declined and both list prompts answered `None`,
a run on a fresh root creates only the fixed outputs: every path that
exists afterwards is a base directory (or an ancestor mkdirp creates), the
unconditionally ensured `src/navigation`, one of the two fixed utility
files, or `tsconfig.json`; none of the four conditional generators'
outputs exist, while the fixed files and directories all do. -/
theorem bare_config_only_fixed_outputs :
    (∀ q : Path, (runOps (scaffoldOps cfgBare) emptyFS q).isSome = true →
      q ∈ fixedOutputPaths) ∧
    (∀ p ∈ conditionalOutputPaths, runOps (scaffoldOps cfgBare) emptyFS p = none) ∧
    runOps (scaffoldOps cfgBare) emptyFS mediaHandlerPath
      = some (Entry.file ContentTag.mediaHandler) ∧
    runOps (scaffoldOps cfgBare) emptyFS responsiveScreenPath
      = some (Entry.file ContentTag.responsiveScreen) ∧
    runOps (scaffoldOps cfgBare) emptyFS tsconfigPath
      = some (Entry.file ContentTag.tsconfigJson) ∧
    (∀ d ∈ baseDirectories, runOps (scaffoldOps cfgBare) emptyFS d = some Entry.dir) ∧
    runOps (scaffoldOps cfgBare) emptyFS ["src", "navigation"] = some Entry.dir := by
  refine ⟨?_, by decide, by decide, by decide, by decide, by decide, by decide⟩
  intro q hq
  have hsub : ∀ x ∈ targetsOf (scaffoldOps cfgBare), x ∈ fixedOutputPaths := by decide
  exact hsub q (runOps_isSome_mem hq)

/-- C2 witness: on the all-declined run, the surviving `tsconfig.json`
path is among the fixed outputs, and the conditional storage file is
absent. -/
theorem bare_config_only_fixed_outputs_witness :
    tsconfigPath ∈ fixedOutputPaths ∧
    runOps (scaffoldOps cfgBare) emptyFS asyncStoragePath = none :=
  ⟨bare_config_only_fixed_outputs.1 tsconfigPath (by decide),
   bare_config_only_fixed_outputs.2.1 asyncStoragePath (by decide)⟩

/-- C3: a run with `storageType = "Async Storage"` writes exactly one file
at one of the two storage utility paths, namely `src/utils/asyncStorage.ts`
with the async-storage content, and a run with `"React Native MMKV"`
writes exactly the analogous `src/utils/mmkvStorage.ts`; both generated
modules declare the same four static operations `setItem`, `getItem`,
`deleteItem`, `clearAll`. -/
theorem storage_choice_single_file (cfg : ScaffoldConfig) :
    (cfg.storageType = some "Async Storage" →
      storageWrites (scaffoldOps cfg) = [(asyncStoragePath, ContentTag.asyncStorage)]) ∧
    (cfg.storageType = some "React Native MMKV" →
      storageWrites (scaffoldOps cfg) = [(mmkvStoragePath, ContentTag.mmkvStorage)]) ∧
    asyncStorageModule.methods = ["setItem", "getItem", "deleteItem", "clearAll"] ∧
    mmkvStorageModule.methods = ["setItem", "getItem", "deleteItem", "clearAll"] := by
  obtain ⟨b, st, nv, sm⟩ := cfg
  refine ⟨?_, ?_, rfl, rfl⟩ <;>
  · intro h
    simp only at h
    subst h
    simp only [scaffoldOps, storageWrites_append]
    rw [storageWrites_bottomChunk, storageWrites_navChunk, storageWrites_stateChunk]
    decide

/-- C3 witness: concrete runs choosing Async Storage and MMKV each write
exactly the one corresponding storage utility file. -/
theorem storage_choice_single_file_witness :
    storageWrites (scaffoldOps cfgAsync) = [(asyncStoragePath, ContentTag.asyncStorage)] ∧
    storageWrites (scaffoldOps cfgMMKV) = [(mmkvStoragePath, ContentTag.mmkvStorage)] :=
  ⟨(storage_choice_single_file cfgAsync).1 rfl,
   (storage_choice_single_file cfgMMKV).2.1 rfl⟩

/-- C6: the four prompts are awaited before any filesystem mutation of the
run, so if any of the four prompt outcomes is a failure, the run performs
no mutation at all: no directory is created and no file is written. -/
theorem prompt_failure_no_fs_mutation
    (r1 : Except PromptError Bool) (r2 : Except PromptError String)
    (r3 : Except PromptError Bool) (r4 : Except PromptError String)
    (h : r1.isOk = false ∨ r2.isOk = false ∨ r3.isOk = false ∨ r4.isOk = false) :
    scaffoldRun r1 r2 r3 r4 = [] := by
  cases r1 <;> cases r2 <;> cases r3 <;> cases r4 <;>
    first
      | rfl
      | simp [Except.isOk, Except.toBool] at h

/-- C6 witness: an `InputUnavailable` failure of the very first prompt
yields a run with zero filesystem operations. -/
theorem prompt_failure_no_fs_mutation_witness :
    scaffoldRun (Except.error (PromptError.inputUnavailable "non-interactive terminal"))
      (Except.ok "None") (Except.ok false) (Except.ok "None") = [] :=
  prompt_failure_no_fs_mutation _ _ _ _ (Or.inl rfl)

/-- C9: in every configuration, each file the pipeline writes has its
parent directory created by an earlier mkdirp of the same run (or writes
directly into the root) — even the bottom-tab navigator file, whose own
generator creates no parent directory (on its own its operation list
violates the invariant, and it never mkdirps `src/navigation`): the
unconditional `ensureNavigationDirectory` step provides its parent. -/
theorem every_write_parent_prepared (cfg : ScaffoldConfig) :
    parentsPrepared (scaffoldOps cfg) = true ∧
    parentsPrepared setupBottomNavigationOps = false ∧
    FsOp.mkdirp ["src", "navigation"] ∉ setupBottomNavigationOps := by
  refine ⟨?_, by decide, by decide⟩
  obtain ⟨b, st, nv, sm⟩ := cfg
  rcases storageChunk_cases st with h1 | h1 | h1 <;>
    rcases stateChunk_cases sm with h2 | h2 | h2 | h2 <;>
      cases b <;> cases nv <;>
        · simp only [scaffoldOps]
          rw [h1, h2]
          decide

/-- C10 (counterexample): the claim fails inside its own quantified
range.  The storage choice `"constructor"` is outside the two handled
keys, yet the property read does not fall back to the empty file list —
it yields the truthy inherited `Object.prototype.constructor` — and both
generators raise a TypeError at `files.forEach` for it instead of writing
zero files without error. -/
theorem unknown_choice_constructor_raises :
    ("constructor" : String) ≠ "Async Storage" ∧
    ("constructor" : String) ≠ "React Native MMKV" ∧
    ("constructor" : String) ≠ "Redux Toolkit" ∧
    ("constructor" : String) ≠ "Zustand" ∧
    ("constructor" : String) ≠ "Context API" ∧
    jsOrEmptyList (storageFilesAccess "constructor") ≠ JsValue.fileList [] ∧
    (setupStorageRun "constructor").isOk = false ∧
    (setupStateManagementRun "constructor").isOk = false := by
  decide

/-- C10 (amended): every storage choice outside the two handled keys and
every state-management choice outside the three handled keys that does
not name a property inherited from `Object.prototype` — in particular the
selectable `"None"`, which as a truthy string still enters the
conditional generator — reads as `undefined`, so the `|| []` fallback
yields the empty file list and the generator performs zero operations and
raises no error; a choice naming an inherited `Object.prototype` property
instead raises a TypeError at `files.forEach`. -/
theorem unknown_choice_writes_nothing_amended (s t : String)
    (hs1 : s ≠ "Async Storage") (hs2 : s ≠ "React Native MMKV")
    (hsp : objectPrototypeKeys.contains s = false)
    (ht1 : t ≠ "Redux Toolkit") (ht2 : t ≠ "Zustand") (ht3 : t ≠ "Context API")
    (htp : objectPrototypeKeys.contains t = false) :
    jsTruthy (some "None") = true ∧
    storageFilesAccess s = JsValue.undef ∧
    stateManagementFilesAccess t = JsValue.undef ∧
    setupStorageRun s = Except.ok [] ∧
    setupStateManagementRun t = Except.ok [] ∧
    (∀ u ∈ objectPrototypeKeys,
      (setupStorageRun u).isOk = false ∧ (setupStateManagementRun u).isOk = false) := by
  have hsp' : s ∉ objectPrototypeKeys := by simpa using hsp
  have htp' : t ∉ objectPrototypeKeys := by simpa using htp
  have hsa : storageFilesAccess s = JsValue.undef := by
    simp [storageFilesAccess, hs1, hs2, hsp']
  have hta : stateManagementFilesAccess t = JsValue.undef := by
    simp [stateManagementFilesAccess, ht1, ht2, ht3, htp']
  refine ⟨by decide, hsa, hta, ?_, ?_, by decide⟩
  · rw [setupStorageRun, hsa]; rfl
  · rw [setupStateManagementRun, hta]; rfl

/-- C10 witness: the choice `"None"` reads as `undefined`, enters both
conditional generators and performs zero operations without error in
each, while the prototype-inherited key `"toString"` makes the storage
generator raise. -/
theorem unknown_choice_writes_nothing_amended_witness :
    setupStorageRun "None" = Except.ok [] ∧
    setupStateManagementRun "None" = Except.ok [] ∧
    (setupStorageRun "toString").isOk = false := by
  have h := unknown_choice_writes_nothing_amended "None" "None"
    (by decide) (by decide) (by decide) (by decide) (by decide) (by decide) (by decide)
  exact ⟨h.2.2.2.1, h.2.2.2.2.1, (h.2.2.2.2.2 "toString" (by decide)).1⟩

end RNMaker
